import Mathlib

/-
Verification of the process-lifecycle core of WeeChat
(src/src/core/weechat.c) against its natural-language specification.

The file is a shallow embedding of weechat.c: pure data flow is translated
into Lean functions, the stateful initialization / shutdown sequences into
functions producing explicit event traces and explicit final states, and
the signal handlers into state transformers.  External collaborators
(secure store, configuration store, upgrade file handling, GUI callback,
filesystem) are modelled as explicit inputs, since only their call sites
are visible in weechat.c.
-/

set_option maxHeartbeats 1000000

namespace WeechatCore

/-- Exit code EXIT_SUCCESS used by weechat.c. -/
def EXIT_SUCCESS : Int := 0

/-- Exit code EXIT_FAILURE used by weechat.c. -/
def EXIT_FAILURE : Int := 1

/-- Signal number of SIGHUP (Linux). -/
def SIGHUP : Nat := 1

/-- Signal number of SIGINT (Linux). -/
def SIGINT : Nat := 2

/-- Signal number of SIGQUIT (Linux). -/
def SIGQUIT : Nat := 3

/-- Signal number of SIGSEGV (Linux). -/
def SIGSEGV : Nat := 11

/-- Signal number of SIGPIPE (Linux). -/
def SIGPIPE : Nat := 13

/-- Signal number of SIGTERM (Linux). -/
def SIGTERM : Nat := 15

/-- First character of a C string; weechat.c reads home_path[0].
An empty Lean string corresponds to a C string whose first byte is NUL. -/
def cstrHead (s : String) : Option Char := s.data.head?

/-- The C string starting one character after the beginning (home_path + 1). -/
def cstrTail (s : String) : String := String.mk (s.data.drop 1)

/-- Concatenation of two C strings, as built by snprintf ("%s%s", a, b). -/
def cstrAppend (a b : String) : String := String.mk (a.data ++ b.data)

/-- Names of the three top-level strings freed by weechat_shutdown:
weechat_argv0, weechat_home, weechat_local_charset. -/
inductive Res
  | argv0
  | home
  | localCharset
deriving DecidableEq, Repr

/-- Informational outputs written to stdout by weechat.c. -/
inductive OutMsg
  | copyright
  | usage
  | license
  | colors
  | version
deriving DecidableEq, Repr

/-- Diagnostics written to the error stream by fatal paths of weechat.c. -/
inductive ErrMsg
  | missingArg (flag : String)
  | noHome
  | noMemory
  | homeUndefined
  | homeNotDir
  | mkdirFail
  | secureInitFailed
  | configInitFailed
deriving DecidableEq, Repr

/-- Observable events of the initialization and shutdown sequences of
weechat.c, in the order the corresponding calls appear in the source. -/
inductive Ev
  | localeSetup
  | charsetInit
  | utf8Init
  | catchSignals
  | hdataInit
  | hookInit
  | debugInit
  | colorInit
  | chatInit
  | commandInit
  | completionInit
  | keyInit
  | gcryptInit
  | secureInit
  | configInit
  | out (m : OutMsg)
  | err (m : ErrMsg)
  | flushWaitingStderr
  | logClose
  | networkEnd
  | debugEnd
  | freeEv (r : Res)
  | logInit
  | pluginApiInit
  | secureRead
  | configRead
  | gnutlsInit
  | guiInit
  | upgradeLoad
  | startupMessage
  | flushWaitingNull
  | termCheck
  | localeCheck
  | commandStartup (afterPlugins : Bool)
  | pluginInit
  | layoutApply
  | upgradeEnd
deriving DecidableEq, Repr

/-- The global variables written by weechat_parse_args (weechat.c lines
176-181 and the option branches of its loop). -/
structure ParseState where
  argv0 : Option String
  upgrading : Bool
  home : Option String
  serverCmdLine : Bool
  autoLoadPlugins : Bool
  pluginNoDlclose : Bool
  noGnutls : Bool
  noGcrypt : Bool
  startupCommands : Option String
deriving DecidableEq, Repr

/-- The loop of weechat_parse_args (weechat.c lines 183-286).  The branches
appear in the order of the source.  A terminating branch returns the output
events printed before weechat_shutdown, the exit code passed to it, and the
globals at that moment (weechat_shutdown frees them); a completed loop
returns the final globals. -/
def weechat_parse_args_loop : ParseState → List String → Sum (List Ev × Int × ParseState) ParseState
  | ps, [] => Sum.inr ps
  | ps, a :: rest =>
    if a = "-c" ∨ a = "--colors" then
      Sum.inl ([Ev.out OutMsg.colors], EXIT_SUCCESS, ps)
    else if a = "-d" ∨ a = "--dir" then
      match rest with
      | [] => Sum.inl ([Ev.err (ErrMsg.missingArg a)], EXIT_FAILURE, ps)
      | v :: rest2 => weechat_parse_args_loop { ps with home := some v } rest2
    else if a = "-h" ∨ a = "--help" then
      Sum.inl ([Ev.out OutMsg.copyright, Ev.out OutMsg.usage], EXIT_SUCCESS, ps)
    else if a = "-l" ∨ a = "--license" then
      Sum.inl ([Ev.out OutMsg.copyright, Ev.out OutMsg.license], EXIT_SUCCESS, ps)
    else if a = "--no-dlclose" then
      weechat_parse_args_loop { ps with pluginNoDlclose := true } rest
    else if a = "--no-gnutls" then
      weechat_parse_args_loop { ps with noGnutls := true } rest
    else if a = "--no-gcrypt" then
      weechat_parse_args_loop { ps with noGcrypt := true } rest
    else if a = "-p" ∨ a = "--no-plugin" then
      weechat_parse_args_loop { ps with autoLoadPlugins := false } rest
    else if a = "-r" ∨ a = "--run-command" then
      match rest with
      | [] => Sum.inl ([Ev.err (ErrMsg.missingArg a)], EXIT_FAILURE, ps)
      | v :: rest2 => weechat_parse_args_loop { ps with startupCommands := some v } rest2
    else if a = "--upgrade" then
      weechat_parse_args_loop { ps with upgrading := true } rest
    else if a = "-v" ∨ a = "--version" then
      Sum.inl ([Ev.out OutMsg.version], EXIT_SUCCESS, ps)
    else
      weechat_parse_args_loop ps rest

/-- The initial global state set at the top of weechat_parse_args
(weechat.c lines 176-181): argv0 is strdup (argv[0]) when present, the
other fields are reset; weechat_startup_commands starts as NULL. -/
def parseInitState (argv : List String) : ParseState :=
  { argv0 := argv.head?, upgrading := false, home := none,
    serverCmdLine := false, autoLoadPlugins := true,
    pluginNoDlclose := false, noGnutls := false,
    noGcrypt := false, startupCommands := none }

/-- External inputs of one launch: environment variables, results of the
external collaborator calls made by weechat.c, and the filesystem as seen
by stat and util_mkdir. -/
structure InitWorld where
  envHOME : Option String
  envWEECHAT_HOME : Option String
  codesetName : String
  secureInitOk : Bool
  configInitOk : Bool
  mallocOk : Bool
  statResult : String → Option Bool
  mkdirOk : String → Bool
  /-- Modelled from the spec: the body of upgrade_weechat_load
  (wee-upgrade.c) is not part of the visible source; per the spec the
  restore phase either succeeds or fails.  weechat.c line 662 discards the
  return value of upgrade_weechat_load, so this field is never read by
  weechatInit; the frame theorem below makes that explicit. -/
  upgradeLoadOk : Bool
  guiCb : Bool
  handoffExists : Bool

/-- The function weechat_set_home_path (weechat.c lines 293-331): a leading
tilde is replaced by getenv ("HOME"); a missing HOME, or a failing
allocation, is a fatal error printed to stderr. -/
def weechat_set_home_path (w : InitWorld) (home_path : String) : Sum ErrMsg String :=
  if cstrHead home_path = some '~' then
    match w.envHOME with
    | none => Sum.inl ErrMsg.noHome
    | some ptrHome =>
        if w.mallocOk then Sum.inr (cstrAppend ptrHome (cstrTail home_path))
        else Sum.inl ErrMsg.noMemory
  else
    if w.mallocOk then Sum.inr home_path else Sum.inl ErrMsg.noMemory

/-- The resolution half of weechat_create_home_dir (weechat.c lines
350-371): if weechat_home is already set (the value of -d or --dir stored
verbatim by weechat_parse_args) it is used as is; otherwise a non-empty
WEECHAT_HOME environment variable, expanded by weechat_set_home_path;
otherwise the compile-time default, also expanded, with an empty default
being fatal. -/
def weechat_resolve_home (w : InitWorld) (compiledHome : String) (current : Option String) :
    Sum ErrMsg String :=
  match current with
  | some p => Sum.inr p
  | none =>
    match w.envWEECHAT_HOME with
    | some wh =>
        if wh = "" then
          if compiledHome = "" then Sum.inl ErrMsg.homeUndefined
          else weechat_set_home_path w compiledHome
        else weechat_set_home_path w wh
    | none =>
        if compiledHome = "" then Sum.inl ErrMsg.homeUndefined
        else weechat_set_home_path w compiledHome

/-- The function weechat_create_home_dir (weechat.c lines 340-397):
resolution, then the stat check (an existing non-directory is fatal), then
util_mkdir (failure is fatal).  On a fatal outcome the result carries the
value of the weechat_home global at that point, because weechat_shutdown
frees it. -/
def weechat_create_home_dir (w : InitWorld) (compiledHome : String) (current : Option String) :
    Sum (ErrMsg × Option String) String :=
  match weechat_resolve_home w compiledHome current with
  | Sum.inl e => Sum.inl (e, none)
  | Sum.inr home =>
    match w.statResult home with
    | some isDir =>
        if isDir then
          if w.mkdirOk home then Sum.inr home else Sum.inl (ErrMsg.mkdirFail, some home)
        else Sum.inl (ErrMsg.homeNotDir, some home)
    | none =>
        if w.mkdirOk home then Sum.inr home else Sum.inl (ErrMsg.mkdirFail, some home)

/-- Values of the three freed globals at the moment weechat_shutdown runs. -/
structure GlobalStrings where
  argv0 : Option String
  home : Option String
  localCharset : Option String
deriving DecidableEq, Repr

/-- The event trace of one call of weechat_shutdown (weechat.c lines
581-601): flush waiting chat lines to stderr, close the log, end the
network and debug subsystems, then free each of the three global strings
that is non-NULL. -/
def shutdownEvents (g : GlobalStrings) : List Ev :=
  [Ev.flushWaitingStderr, Ev.logClose, Ev.networkEnd, Ev.debugEnd]
  ++ (match g.argv0 with | some _ => [Ev.freeEv Res.argv0] | none => [])
  ++ (match g.home with | some _ => [Ev.freeEv Res.home] | none => [])
  ++ (match g.localCharset with | some _ => [Ev.freeEv Res.localCharset] | none => [])

/-- Modelled from the spec: the body of upgrade_weechat_end (wee-upgrade.c)
is not part of the visible source; per the spec the cleanup step deletes
the on-disk handoff files.  The call site (weechat.c line 676) invokes it
unconditionally whenever weechat_upgrading is set. -/
def upgradeEndHandoff (_existedBefore : Bool) : Bool := false

/-- Events of weechat_init (weechat.c lines 607-644) up to and including
network_init_gcrypt, all unconditional and preceding the secure-store
initialization. -/
def weechatInitPrefix : List Ev :=
  [Ev.localeSetup, Ev.charsetInit, Ev.utf8Init, Ev.catchSignals,
   Ev.hdataInit, Ev.hookInit, Ev.debugInit, Ev.colorInit, Ev.chatInit,
   Ev.commandInit, Ev.completionInit, Ev.keyInit, Ev.gcryptInit]

/-- Events of weechat_init after a successful home-directory creation
(weechat.c lines 651-677): log, plugin-api hooks, secure and config reads,
gnutls, the optional GUI callback, the upgrade restore when upgrading, the
startup message block, pre-plugin commands, plugin init, post-plugin
commands, and finally either the layout application or the upgrade
cleanup. -/
def finishedTail (guiCb upgrading : Bool) : List Ev :=
  [Ev.logInit, Ev.pluginApiInit, Ev.secureRead, Ev.configRead, Ev.gnutlsInit]
  ++ (if guiCb then [Ev.guiInit] else [])
  ++ (if upgrading then [Ev.upgradeLoad] else [])
  ++ [Ev.startupMessage, Ev.flushWaitingNull, Ev.termCheck, Ev.localeCheck,
      Ev.commandStartup false, Ev.pluginInit, Ev.commandStartup true]
  ++ (if upgrading then [Ev.upgradeEnd] else [Ev.layoutApply])

/-- Outcome of weechat_init: either the process exited (through
weechat_shutdown with a non-negative code) or initialization completed and
control proceeds to the main loop. -/
inductive Outcome
  | exited (code : Int)
  | finished
deriving DecidableEq, Repr

/-- Result of one run of weechat_init: the event trace (every event
precedes the termination when the outcome is an exit), the outcome, the
parsed configuration when parsing completed, the final value of
weechat_upgrade_count (0 at process start), and whether the upgrade
handoff files exist afterwards. -/
structure InitResult where
  trace : List Ev
  outcome : Outcome
  finalConfig : Option ParseState
  upgradeCount : Nat
  handoffExists : Bool
deriving DecidableEq, Repr

/-- Modelled from the spec: the bodies of secure_init (wee-secure.c) and
config_weechat_init (wee-config.c) are not part of the visible source;
per the spec every fatal subsystem-initialization failure prints a
human-readable diagnostic on the error channel before the process
terminates, so a failing call is modelled as emitting one error event. -/
def secureInitEvents (ok : Bool) : List Ev :=
  if ok then [Ev.secureInit] else [Ev.secureInit, Ev.err ErrMsg.secureInitFailed]

/-- Modelled from the spec: diagnostic of a failing config_weechat_init,
analogous to secureInitEvents. -/
def configInitEvents (ok : Bool) : List Ev :=
  if ok then [Ev.configInit] else [Ev.configInit, Ev.err ErrMsg.configInitFailed]

/-- The function weechat_init (weechat.c lines 607-677) as a trace and
outcome function.  Control flow follows the source: locale and charset
setup, signal installation, the unconditional subsystem initializers,
secure_init and config_weechat_init (each fatal on failure), argument
parsing (which may exit), home-directory creation (fatal on failure),
then the remaining initializers; when upgrading, upgrade_weechat_load runs
(its result discarded, line 662), weechat_upgrade_count is incremented
(line 663), and upgrade_weechat_end runs at the very end (line 676). -/
def weechatInit (argv : List String) (w : InitWorld) (compiledHome : String) : InitResult :=
  let charset : Option String := some w.codesetName
  if w.secureInitOk then
    if w.configInitOk then
      match weechat_parse_args_loop (parseInitState argv) (argv.drop 1) with
      | Sum.inl (evs, code, psx) =>
          { trace := weechatInitPrefix ++ secureInitEvents true ++ configInitEvents true ++ evs
              ++ shutdownEvents { argv0 := psx.argv0, home := psx.home, localCharset := charset },
            outcome := Outcome.exited code, finalConfig := none,
            upgradeCount := 0, handoffExists := w.handoffExists }
      | Sum.inr ps =>
          match weechat_create_home_dir w compiledHome ps.home with
          | Sum.inl (e, homeAtFail) =>
              { trace := weechatInitPrefix ++ secureInitEvents true ++ configInitEvents true
                  ++ [Ev.err e]
                  ++ shutdownEvents { argv0 := ps.argv0, home := homeAtFail, localCharset := charset },
                outcome := Outcome.exited EXIT_FAILURE, finalConfig := some ps,
                upgradeCount := 0, handoffExists := w.handoffExists }
          | Sum.inr _home =>
              { trace := weechatInitPrefix ++ secureInitEvents true ++ configInitEvents true
                  ++ finishedTail w.guiCb ps.upgrading,
                outcome := Outcome.finished, finalConfig := some ps,
                upgradeCount := if ps.upgrading then 1 else 0,
                handoffExists := if ps.upgrading then upgradeEndHandoff w.handoffExists
                                 else w.handoffExists }
    else
      { trace := weechatInitPrefix ++ secureInitEvents true ++ configInitEvents false
          ++ shutdownEvents { argv0 := none, home := none, localCharset := charset },
        outcome := Outcome.exited EXIT_FAILURE, finalConfig := none,
        upgradeCount := 0, handoffExists := w.handoffExists }
  else
    { trace := weechatInitPrefix ++ secureInitEvents false
        ++ shutdownEvents { argv0 := none, home := none, localCharset := charset },
      outcome := Outcome.exited EXIT_FAILURE, finalConfig := none,
      upgradeCount := 0, handoffExists := w.handoffExists }

/-- The informational flags of weechat_parse_args that print and exit. -/
def infoFlags : List String :=
  ["-c", "--colors", "-h", "--help", "-l", "--license", "-v", "--version"]

/-- The flags of weechat_parse_args that consume a following value. -/
def valueFlags : List String := ["-d", "--dir", "-r", "--run-command"]

/-- Whether an argument list contains an informational flag at a position
where the parse loop actually dispatches on it, i.e. not swallowed as the
value of a preceding dir or run-command option. -/
def effectiveInfoFlag : List String → Bool
  | [] => false
  | a :: rest =>
    if a ∈ infoFlags then true
    else if a ∈ valueFlags then
      match rest with
      | [] => false
      | _ :: rest2 => effectiveInfoFlag rest2
    else effectiveInfoFlag rest

/-- The process-wide lifecycle globals touched by the signal handlers of
weechat.c.  quitSignal models the volatile sig_atomic_t
weechat_quit_signal (0 when no signal is pending). -/
structure LifecycleState where
  quit : Bool
  quitSignal : Nat
  upgrading : Bool
  firstStart : Bool
  upgradeCount : Nat
deriving DecidableEq, Repr

/-- The handler weechat_sighup (weechat.c lines 551-555). -/
def weechat_sighup (g : LifecycleState) : LifecycleState :=
  { g with quitSignal := SIGHUP }

/-- The handler weechat_sigquit (weechat.c lines 561-565). -/
def weechat_sigquit (g : LifecycleState) : LifecycleState :=
  { g with quitSignal := SIGQUIT }

/-- The handler weechat_sigterm (weechat.c lines 571-575). -/
def weechat_sigterm (g : LifecycleState) : LifecycleState :=
  { g with quitSignal := SIGTERM }

/-- Disposition of a signal after the util_catch_signal calls. -/
inductive SignalAction
  | dfl
  | ign
  | segvDump
  | hupAction
  | quitAction
  | termAction
deriving DecidableEq, Repr

/-- The function util_catch_signal as used by weechat_init: it replaces the
disposition of one signal in the process signal table. -/
def util_catch_signal (t : Nat → SignalAction) (sig : Nat) (a : SignalAction) :
    Nat → SignalAction :=
  fun s => if s = sig then a else t s

/-- The signal table after the seven util_catch_signal calls of
weechat_init (weechat.c lines 628-634), applied in source order: SIGINT,
SIGQUIT and SIGPIPE ignored, then SIGSEGV, SIGHUP, SIGQUIT and SIGTERM
given handlers.  Note that the SIGQUIT handler registration on line 633
overwrites the SIG_IGN registration of line 629. -/
def signalsInstalled : Nat → SignalAction :=
  util_catch_signal
    (util_catch_signal
      (util_catch_signal
        (util_catch_signal
          (util_catch_signal
            (util_catch_signal
              (util_catch_signal (fun _ => SignalAction.dfl) SIGINT SignalAction.ign)
              SIGQUIT SignalAction.ign)
            SIGPIPE SignalAction.ign)
          SIGSEGV SignalAction.segvDump)
        SIGHUP SignalAction.hupAction)
      SIGQUIT SignalAction.quitAction)
    SIGTERM SignalAction.termAction

/-- Effect of delivering a signal on the lifecycle globals, given a signal
table.  An ignored signal has no effect; the quit handlers run their
single store.  The default action and the SIGSEGV crash dump terminate or
dump rather than touch these globals, so they leave them unchanged here;
no claim below is about those dispositions. -/
def deliverSignal (table : Nat → SignalAction) (g : LifecycleState) (sig : Nat) :
    LifecycleState :=
  match table sig with
  | SignalAction.ign => g
  | SignalAction.hupAction => weechat_sighup g
  | SignalAction.quitAction => weechat_sigquit g
  | SignalAction.termAction => weechat_sigterm g
  | SignalAction.dfl => g
  | SignalAction.segvDump => g

/-- Heap view of the state acted on by weechat_shutdown: the values of the
three global string pointers (none models NULL; a freed pointer keeps its
value, mirroring that weechat.c never resets them), the set of live heap
blocks, and a flag recording whether free was ever called on a dead
block. -/
structure MemState where
  argv0 : Option Nat
  home : Option Nat
  localCharset : Option Nat
  live : List Nat
  doubleFree : Bool
deriving DecidableEq, Repr

/-- Effect of free (p) on the heap: a live block is released; freeing a
block that is not live is a double free.  The pointer fields are not
touched, exactly as in weechat.c. -/
def freeBlock (s : MemState) (h : Nat) : MemState :=
  if h ∈ s.live then { s with live := s.live.erase h }
  else { s with doubleFree := true }

/-- Effect of the guarded free pattern of weechat_shutdown:
if (ptr) free (ptr). -/
def freeIfSet (s : MemState) (p : Option Nat) : MemState :=
  match p with
  | some h => freeBlock s h
  | none => s

/-- Way weechat_shutdown leaves the process. -/
inductive ShutdownExit
  | exited (code : Int)
  | aborted
  | returned
deriving DecidableEq, Repr

/-- Result of one call of weechat_shutdown: final heap state, event trace,
and how (or whether) the process terminated. -/
structure ShutdownRes where
  state : MemState
  trace : List Ev
  exit : ShutdownExit
deriving DecidableEq, Repr

/-- The function weechat_shutdown (weechat.c lines 581-601): flush waiting
chat lines to stderr, close the log, end the network and debug layers,
free each non-NULL global string (the pointer globals are not reset), then
abort when crash is set, exit when return_code is non-negative, and
otherwise return to the caller.  The reads of s.home and s.localCharset
after the earlier frees match the C globals there, because freeBlock never
modifies the pointer fields. -/
def weechat_shutdown (s : MemState) (return_code : Int) (crash : Bool) : ShutdownRes :=
  let s1 := freeIfSet s s.argv0
  let s2 := freeIfSet s1 s.home
  let s3 := freeIfSet s2 s.localCharset
  { state := s3,
    trace := [Ev.flushWaitingStderr, Ev.logClose, Ev.networkEnd, Ev.debugEnd]
      ++ (match s.argv0 with | some _ => [Ev.freeEv Res.argv0] | none => [])
      ++ (match s.home with | some _ => [Ev.freeEv Res.home] | none => [])
      ++ (match s.localCharset with | some _ => [Ev.freeEv Res.localCharset] | none => []),
    exit :=
      if crash then ShutdownExit.aborted
      else if 0 ≤ return_code then ShutdownExit.exited return_code
      else ShutdownExit.returned }

/-- Well-formedness of the heap view: live blocks are listed once, every
set pointer points to a live block, and distinct set pointers point to
distinct blocks. -/
def MemWF (s : MemState) : Prop :=
  s.live.Nodup
  ∧ (∀ h, s.argv0 = some h → h ∈ s.live)
  ∧ (∀ h, s.home = some h → h ∈ s.live)
  ∧ (∀ h, s.localCharset = some h → h ∈ s.live)
  ∧ (∀ h, s.argv0 = some h → s.home ≠ some h ∧ s.localCharset ≠ some h)
  ∧ (∀ h, s.home = some h → s.localCharset ≠ some h)

/-- Index of the first occurrence of an event in a trace. -/
def evIdx (t : List Ev) (e : Ev) : Nat := t.findIdx (fun x => x == e)

/-- A world in which every external collaborator succeeds and no
environment variable is needed (the compiled default used below has no
leading tilde). -/
def wOk : InitWorld :=
  { envHOME := some "/home/u", envWEECHAT_HOME := none, codesetName := "UTF-8",
    secureInitOk := true, configInitOk := true, mallocOk := true,
    statResult := fun _ => none, mkdirOk := fun _ => true,
    upgradeLoadOk := true, guiCb := true, handoffExists := false }

/-- A world for the home-resolution counterexample: HOME is /tmp/u. -/
def wC2 : InitWorld :=
  { envHOME := some "/tmp/u", envWEECHAT_HOME := none, codesetName := "UTF-8",
    secureInitOk := true, configInitOk := true, mallocOk := true,
    statResult := fun _ => none, mkdirOk := fun _ => true,
    upgradeLoadOk := true, guiCb := true, handoffExists := false }

/-- A world for the upgrade claims: the handoff files exist at launch and
the restore step fails. -/
def wUpgradeFail : InitWorld :=
  { envHOME := some "/home/u", envWEECHAT_HOME := none, codesetName := "UTF-8",
    secureInitOk := true, configInitOk := true, mallocOk := true,
    statResult := fun _ => none, mkdirOk := fun _ => true,
    upgradeLoadOk := false, guiCb := true, handoffExists := true }

/-- A concrete heap state: the three global strings are set and live. -/
def memS0 : MemState :=
  { argv0 := some 0, home := some 1, localCharset := some 2,
    live := [0, 1, 2], doubleFree := false }

/-- A concrete lifecycle state with no pending quit signal. -/
def g0 : LifecycleState :=
  { quit := false, quitSignal := 0, upgrading := false,
    firstStart := false, upgradeCount := 0 }

/-- The parsed configuration of the launch ["weechat", "--upgrade"]. -/
def psUpgrade : ParseState :=
  { argv0 := some "weechat", upgrading := true, home := none,
    serverCmdLine := false, autoLoadPlugins := true,
    pluginNoDlclose := false, noGnutls := false,
    noGcrypt := false, startupCommands := none }

/-!  Theorems.  -/

/-- Helper: one-step unfolding of the parse loop on a cons cell. -/
theorem parse_step (ps : ParseState) (a : String) (rest : List String) :
    weechat_parse_args_loop ps (a :: rest) =
      (if a = "-c" ∨ a = "--colors" then
        Sum.inl ([Ev.out OutMsg.colors], EXIT_SUCCESS, ps)
      else if a = "-d" ∨ a = "--dir" then
        match rest with
        | [] => Sum.inl ([Ev.err (ErrMsg.missingArg a)], EXIT_FAILURE, ps)
        | v :: rest2 => weechat_parse_args_loop { ps with home := some v } rest2
      else if a = "-h" ∨ a = "--help" then
        Sum.inl ([Ev.out OutMsg.copyright, Ev.out OutMsg.usage], EXIT_SUCCESS, ps)
      else if a = "-l" ∨ a = "--license" then
        Sum.inl ([Ev.out OutMsg.copyright, Ev.out OutMsg.license], EXIT_SUCCESS, ps)
      else if a = "--no-dlclose" then
        weechat_parse_args_loop { ps with pluginNoDlclose := true } rest
      else if a = "--no-gnutls" then
        weechat_parse_args_loop { ps with noGnutls := true } rest
      else if a = "--no-gcrypt" then
        weechat_parse_args_loop { ps with noGcrypt := true } rest
      else if a = "-p" ∨ a = "--no-plugin" then
        weechat_parse_args_loop { ps with autoLoadPlugins := false } rest
      else if a = "-r" ∨ a = "--run-command" then
        match rest with
        | [] => Sum.inl ([Ev.err (ErrMsg.missingArg a)], EXIT_FAILURE, ps)
        | v :: rest2 => weechat_parse_args_loop { ps with startupCommands := some v } rest2
      else if a = "--upgrade" then
        weechat_parse_args_loop { ps with upgrading := true } rest
      else if a = "-v" ∨ a = "--version" then
        Sum.inl ([Ev.out OutMsg.version], EXIT_SUCCESS, ps)
      else
        weechat_parse_args_loop ps rest) := by
  rw [weechat_parse_args_loop.eq_def]

/-- C1 counterexample: running with argument list ["weechat", "-h"] (which
contains the informational flag -h) does terminate with the success exit
code, but the trace produced before that termination contains the
introspection-registry, crypto, secure-store and configuration-store
initializer steps, contradicting the claim that no Subsystem Initializer
step is ever invoked before the termination: in weechat.c the argument
parsing (line 649) runs after those initializers (lines 636-648). -/
theorem help_flag_trace_contains_subsystem_init :
    ("-h" ∈ (["weechat", "-h"] : List String))
    ∧ (weechatInit ["weechat", "-h"] wOk "/wh").outcome = Outcome.exited EXIT_SUCCESS
    ∧ Ev.hdataInit ∈ (weechatInit ["weechat", "-h"] wOk "/wh").trace
    ∧ Ev.gcryptInit ∈ (weechatInit ["weechat", "-h"] wOk "/wh").trace
    ∧ Ev.secureInit ∈ (weechatInit ["weechat", "-h"] wOk "/wh").trace
    ∧ Ev.configInit ∈ (weechatInit ["weechat", "-h"] wOk "/wh").trace := by
  decide

/-- Helper: freeBlock never changes the pointer fields. -/
theorem freeBlock_fields (s : MemState) (h : Nat) :
    (freeBlock s h).argv0 = s.argv0 ∧ (freeBlock s h).home = s.home
    ∧ (freeBlock s h).localCharset = s.localCharset := by
  unfold freeBlock; split <;> exact ⟨rfl, rfl, rfl⟩

/-- Helper: freeIfSet never changes the pointer fields. -/
theorem freeIfSet_fields (s : MemState) (p : Option Nat) :
    (freeIfSet s p).argv0 = s.argv0 ∧ (freeIfSet s p).home = s.home
    ∧ (freeIfSet s p).localCharset = s.localCharset := by
  cases p with
  | none => exact ⟨rfl, rfl, rfl⟩
  | some h => exact freeBlock_fields s h

/-- Helper: a block absent from the live set stays absent. -/
theorem freeBlock_not_mem (s : MemState) (h a : Nat) (ha : a ∉ s.live) :
    a ∉ (freeBlock s h).live := by
  unfold freeBlock; split
  · intro hmem
    exact ha (List.mem_of_mem_erase hmem)
  · exact ha

/-- Helper: version of freeBlock_not_mem for freeIfSet. -/
theorem freeIfSet_not_mem (s : MemState) (p : Option Nat) (a : Nat) (ha : a ∉ s.live) :
    a ∉ (freeIfSet s p).live := by
  cases p with
  | none => exact ha
  | some h => exact freeBlock_not_mem s h a ha

/-- Helper: freeing a block removes it from a duplicate-free live set. -/
theorem freeBlock_self_not_mem (s : MemState) (h : Nat) (hnd : s.live.Nodup) :
    h ∉ (freeBlock s h).live := by
  unfold freeBlock; split
  · exact hnd.not_mem_erase
  · next hni => exact hni

/-- Helper: the live set only shrinks, so Nodup is preserved. -/
theorem freeBlock_nodup (s : MemState) (h : Nat) (hnd : s.live.Nodup) :
    (freeBlock s h).live.Nodup := by
  unfold freeBlock; split
  · exact hnd.erase h
  · exact hnd

/-- Helper: Nodup preservation for freeIfSet. -/
theorem freeIfSet_nodup (s : MemState) (p : Option Nat) (hnd : s.live.Nodup) :
    (freeIfSet s p).live.Nodup := by
  cases p with
  | none => exact hnd
  | some h => exact freeBlock_nodup s h hnd

/-- Helper: a live block distinct from the freed one stays live. -/
theorem freeBlock_mem_of_ne (s : MemState) (h a : Nat) (hne : a ≠ h) (ha : a ∈ s.live) :
    a ∈ (freeBlock s h).live := by
  unfold freeBlock; split
  · exact (List.mem_erase_of_ne hne).mpr ha
  · exact ha

/-- Helper: freeing a live block does not set the double-free flag. -/
theorem freeBlock_doubleFree_of_mem (s : MemState) (h : Nat) (hm : h ∈ s.live) :
    (freeBlock s h).doubleFree = s.doubleFree := by
  unfold freeBlock; rw [if_pos hm]

/-- Helper: freeing a dead block sets the double-free flag. -/
theorem freeBlock_doubleFree_of_not_mem (s : MemState) (h : Nat) (hm : h ∉ s.live) :
    (freeBlock s h).doubleFree = true := by
  unfold freeBlock; rw [if_neg hm]

/-- Helper: the double-free flag is never cleared. -/
theorem freeBlock_doubleFree_mono (s : MemState) (h : Nat) (hd : s.doubleFree = true) :
    (freeBlock s h).doubleFree = true := by
  unfold freeBlock; split
  · exact hd
  · rfl

/-- Helper: monotonicity of the double-free flag for freeIfSet. -/
theorem freeIfSet_doubleFree_mono (s : MemState) (p : Option Nat) (hd : s.doubleFree = true) :
    (freeIfSet s p).doubleFree = true := by
  cases p with
  | none => exact hd
  | some h => exact freeBlock_doubleFree_mono s h hd

/-- Helper: a guarded free whose target is live does not set the
double-free flag. -/
theorem freeIfSet_doubleFree_of_live (s : MemState) (p : Option Nat)
    (hm : ∀ h, p = some h → h ∈ s.live) :
    (freeIfSet s p).doubleFree = s.doubleFree := by
  cases p with
  | none => rfl
  | some h => exact freeBlock_doubleFree_of_mem s h (hm h rfl)

/-- C5: weechat_shutdown (return_code, crash) aborts when crash is set,
regardless of the return code; otherwise it exits with exactly the given
code when that code is non-negative (the teardown of lines 584-595 having
run first, as the state and trace components record); otherwise it returns
control to the caller without terminating (weechat.c lines 597-600). -/
theorem weechat_shutdown_contract (s : MemState) (rc : Int) (crash : Bool) :
    (crash = true → (weechat_shutdown s rc crash).exit = ShutdownExit.aborted)
    ∧ (crash = false → 0 ≤ rc → (weechat_shutdown s rc crash).exit = ShutdownExit.exited rc)
    ∧ (crash = false → rc < 0 → (weechat_shutdown s rc crash).exit = ShutdownExit.returned) := by
  refine ⟨?_, ?_, ?_⟩
  · intro hc; subst hc; rfl
  · intro hc hrc; subst hc
    simp only [weechat_shutdown, Bool.false_eq_true, if_false, if_pos hrc]
  · intro hc hrc; subst hc
    simp only [weechat_shutdown, Bool.false_eq_true, if_false, if_neg (not_le.mpr hrc)]

/-- C5 witness: shutdown with return code 3 and crash unset exits with
code 3. -/
theorem weechat_shutdown_contract_witness :
    (weechat_shutdown memS0 3 false).exit = ShutdownExit.exited 3 :=
  (weechat_shutdown_contract memS0 3 false).2.1 rfl (by decide)

/-- C10: every call of weechat_shutdown, including the non-terminating one
with a negative return code and crash unset, flushes the waiting chat
lines, closes the log, tears down the networking and diagnostics
subsystems, and frees each of the argv-image, home-path and locale-charset
strings that is set, before returning or exiting; the global string
pointers keep their values (they are freed but never reset to NULL), so
after the call they dangle: they are non-null yet their blocks are no
longer live. -/
theorem weechat_shutdown_always_partial_teardown (s : MemState) (rc : Int) (crash : Bool) :
    Ev.flushWaitingStderr ∈ (weechat_shutdown s rc crash).trace
    ∧ Ev.logClose ∈ (weechat_shutdown s rc crash).trace
    ∧ Ev.networkEnd ∈ (weechat_shutdown s rc crash).trace
    ∧ Ev.debugEnd ∈ (weechat_shutdown s rc crash).trace
    ∧ (∀ h, s.argv0 = some h → Ev.freeEv Res.argv0 ∈ (weechat_shutdown s rc crash).trace)
    ∧ (∀ h, s.home = some h → Ev.freeEv Res.home ∈ (weechat_shutdown s rc crash).trace)
    ∧ (∀ h, s.localCharset = some h →
        Ev.freeEv Res.localCharset ∈ (weechat_shutdown s rc crash).trace)
    ∧ (weechat_shutdown s rc crash).state.argv0 = s.argv0
    ∧ (weechat_shutdown s rc crash).state.home = s.home
    ∧ (weechat_shutdown s rc crash).state.localCharset = s.localCharset
    ∧ (rc < 0 → crash = false → (weechat_shutdown s rc crash).exit = ShutdownExit.returned)
    ∧ (s.live.Nodup → ∀ h,
        (s.argv0 = some h ∨ s.home = some h ∨ s.localCharset = some h) →
        h ∉ (weechat_shutdown s rc crash).state.live) := by
  refine ⟨?_, ?_, ?_, ?_, ?_, ?_, ?_, ?_, ?_, ?_, ?_, ?_⟩
  · simp [weechat_shutdown]
  · simp [weechat_shutdown]
  · simp [weechat_shutdown]
  · simp [weechat_shutdown]
  · intro h hh; simp [weechat_shutdown, hh]
  · intro h hh; simp [weechat_shutdown, hh]
  · intro h hh; simp [weechat_shutdown, hh]
  · show (freeIfSet (freeIfSet (freeIfSet s s.argv0) s.home) s.localCharset).argv0 = s.argv0
    rw [(freeIfSet_fields _ _).1, (freeIfSet_fields _ _).1, (freeIfSet_fields _ _).1]
  · show (freeIfSet (freeIfSet (freeIfSet s s.argv0) s.home) s.localCharset).home = s.home
    rw [(freeIfSet_fields _ _).2.1, (freeIfSet_fields _ _).2.1, (freeIfSet_fields _ _).2.1]
  · show (freeIfSet (freeIfSet (freeIfSet s s.argv0) s.home) s.localCharset).localCharset
        = s.localCharset
    rw [(freeIfSet_fields _ _).2.2, (freeIfSet_fields _ _).2.2, (freeIfSet_fields _ _).2.2]
  · intro hrc hc; subst hc
    simp only [weechat_shutdown, Bool.false_eq_true, if_false, if_neg (not_le.mpr hrc)]
  · intro hnd h hps
    show h ∉ (freeIfSet (freeIfSet (freeIfSet s s.argv0) s.home) s.localCharset).live
    rcases hps with hA | hH | hC
    · refine freeIfSet_not_mem _ _ _ (freeIfSet_not_mem _ _ _ ?_)
      rw [hA]
      exact freeBlock_self_not_mem s h hnd
    · refine freeIfSet_not_mem _ _ _ ?_
      by_cases hmem : h ∈ (freeIfSet s s.argv0).live
      · rw [hH]
        exact freeBlock_self_not_mem _ h (freeIfSet_nodup s _ hnd)
      · rw [hH]
        exact fun hc => hmem ((freeBlock_not_mem _ _ _ hmem) hc |>.elim)
    · by_cases hmem : h ∈ (freeIfSet (freeIfSet s s.argv0) s.home).live
      · rw [hC]
        exact freeBlock_self_not_mem _ h (freeIfSet_nodup _ _ (freeIfSet_nodup s _ hnd))
      · rw [hC]
        exact freeIfSet_not_mem _ _ _ hmem

/-- C10 witness: on the concrete state memS0 with return code -1 and crash
unset, the teardown steps run, the function returns to the caller, and the
argv0 pointer dangles (still set, block no longer live). -/
theorem weechat_shutdown_always_partial_teardown_witness :
    Ev.logClose ∈ (weechat_shutdown memS0 (-1) false).trace
    ∧ (weechat_shutdown memS0 (-1) false).exit = ShutdownExit.returned
    ∧ (0 : Nat) ∉ (weechat_shutdown memS0 (-1) false).state.live := by
  have h := weechat_shutdown_always_partial_teardown memS0 (-1) false
  exact ⟨h.2.1, h.2.2.2.2.2.2.2.2.2.2.1 (by decide) rfl,
    h.2.2.2.2.2.2.2.2.2.2.2 (by decide) 0 (Or.inl rfl)⟩

/-- C6 counterexample: invoking weechat_shutdown twice in sequence with a
negative return code and crash unset (as two successive fatal paths would)
frees the same blocks twice: the first call leaves every pointer field set
(weechat.c never resets them after free), so the second call's guarded
frees run again on dead blocks. -/
theorem weechat_shutdown_double_invocation_double_frees :
    memS0.doubleFree = false
    ∧ (weechat_shutdown memS0 (-1) false).exit = ShutdownExit.returned
    ∧ (weechat_shutdown memS0 (-1) false).state.doubleFree = false
    ∧ (weechat_shutdown (weechat_shutdown memS0 (-1) false).state (-1) false).state.doubleFree
        = true := by
  decide

/-- C6 as amended: each teardown free of weechat_shutdown is guarded only
by the pointer being non-NULL, not by liveness: a single invocation on a
well-formed state frees nothing twice, but because the pointers are not
reset, a second invocation re-frees every string pointer that was set
before the first call (a double free); the double invocation stays free of
double frees only when all three string pointers are NULL. -/
theorem weechat_shutdown_second_call_behavior (s : MemState) (hwf : MemWF s)
    (hdf : s.doubleFree = false) :
    ((weechat_shutdown s (-1) false).state.doubleFree = false)
    ∧ ((s.argv0.isSome = true ∨ s.home.isSome = true ∨ s.localCharset.isSome = true) →
        (weechat_shutdown (weechat_shutdown s (-1) false).state (-1) false).state.doubleFree
          = true)
    ∧ (s.argv0 = none → s.home = none → s.localCharset = none →
        (weechat_shutdown (weechat_shutdown s (-1) false).state (-1) false).state.doubleFree
          = false) := by
  obtain ⟨hnd, hA, hH, hC, hAd, hHd⟩ := hwf
  have hfields1 : ∀ p q r : Option Nat,
      (freeIfSet (freeIfSet (freeIfSet s p) q) r).argv0 = s.argv0
      ∧ (freeIfSet (freeIfSet (freeIfSet s p) q) r).home = s.home
      ∧ (freeIfSet (freeIfSet (freeIfSet s p) q) r).localCharset = s.localCharset := by
    intro p q r
    refine ⟨?_, ?_, ?_⟩
    · rw [(freeIfSet_fields _ _).1, (freeIfSet_fields _ _).1, (freeIfSet_fields _ _).1]
    · rw [(freeIfSet_fields _ _).2.1, (freeIfSet_fields _ _).2.1, (freeIfSet_fields _ _).2.1]
    · rw [(freeIfSet_fields _ _).2.2, (freeIfSet_fields _ _).2.2, (freeIfSet_fields _ _).2.2]
  have hmem1 : ∀ h, s.home = some h → h ∈ (freeIfSet s s.argv0).live := by
    intro b hb
    cases haa : s.argv0 with
    | none => exact hH b hb
    | some a =>
        exact freeBlock_mem_of_ne s a b (fun hba => (hAd a haa).1 (hba ▸ hb)) (hH b hb)
  have hmem2 : ∀ h, s.localCharset = some h →
      h ∈ (freeIfSet (freeIfSet s s.argv0) s.home).live := by
    intro c hc
    have h1 : c ∈ (freeIfSet s s.argv0).live := by
      cases haa : s.argv0 with
      | none => exact hC c hc
      | some a =>
          exact freeBlock_mem_of_ne s a c (fun hca => (hAd a haa).2 (hca ▸ hc)) (hC c hc)
    cases hhh : s.home with
    | none => exact h1
    | some b => exact freeBlock_mem_of_ne _ b c (fun hcb => (hHd b hhh) (hcb ▸ hc)) h1
  have hsafe1 : (weechat_shutdown s (-1) false).state.doubleFree = false := by
    show (freeIfSet (freeIfSet (freeIfSet s s.argv0) s.home) s.localCharset).doubleFree = false
    rw [freeIfSet_doubleFree_of_live _ _ hmem2, freeIfSet_doubleFree_of_live _ _ hmem1,
        freeIfSet_doubleFree_of_live _ _ hA]
    exact hdf
  refine ⟨hsafe1, ?_, ?_⟩
  · intro hsome
    have hf1 : (weechat_shutdown s (-1) false).state.argv0 = s.argv0
        ∧ (weechat_shutdown s (-1) false).state.home = s.home
        ∧ (weechat_shutdown s (-1) false).state.localCharset = s.localCharset :=
      hfields1 s.argv0 s.home s.localCharset
    have hdead : ∀ h : Nat,
        (s.argv0 = some h ∨ s.home = some h ∨ s.localCharset = some h) →
        h ∉ (weechat_shutdown s (-1) false).state.live := by
      intro h hps
      show h ∉ (freeIfSet (freeIfSet (freeIfSet s s.argv0) s.home) s.localCharset).live
      rcases hps with hA0 | hH0 | hC0
      · refine freeIfSet_not_mem _ _ _ (freeIfSet_not_mem _ _ _ ?_)
        rw [hA0]; exact freeBlock_self_not_mem s h hnd
      · refine freeIfSet_not_mem _ _ _ ?_
        by_cases hmem : h ∈ (freeIfSet s s.argv0).live
        · rw [hH0]; exact freeBlock_self_not_mem _ h (freeIfSet_nodup s _ hnd)
        · rw [hH0]; exact fun hc => hmem ((freeBlock_not_mem _ _ _ hmem) hc |>.elim)
      · by_cases hmem : h ∈ (freeIfSet (freeIfSet s s.argv0) s.home).live
        · rw [hC0]
          exact freeBlock_self_not_mem _ h (freeIfSet_nodup _ _ (freeIfSet_nodup s _ hnd))
        · rw [hC0]; exact freeIfSet_not_mem _ _ _ hmem
    show (freeIfSet (freeIfSet (freeIfSet
        (weechat_shutdown s (-1) false).state
        (weechat_shutdown s (-1) false).state.argv0)
        (weechat_shutdown s (-1) false).state.home)
        (weechat_shutdown s (-1) false).state.localCharset).doubleFree = true
    rcases hsome with hsA | hsH | hsC
    · obtain ⟨a, haa⟩ := Option.isSome_iff_exists.mp hsA
      have hd1 : (freeIfSet (weechat_shutdown s (-1) false).state
          (weechat_shutdown s (-1) false).state.argv0).doubleFree = true := by
        rw [hf1.1, haa]
        exact freeBlock_doubleFree_of_not_mem _ _ (hdead a (Or.inl haa))
      exact freeIfSet_doubleFree_mono _ _ (freeIfSet_doubleFree_mono _ _ hd1)
    · obtain ⟨b, hbb⟩ := Option.isSome_iff_exists.mp hsH
      have hd2 : (freeIfSet (freeIfSet (weechat_shutdown s (-1) false).state
          (weechat_shutdown s (-1) false).state.argv0)
          (weechat_shutdown s (-1) false).state.home).doubleFree = true := by
        rw [hf1.2.1, hbb]
        exact freeBlock_doubleFree_of_not_mem _ _
          (freeIfSet_not_mem _ _ _ (hdead b (Or.inr (Or.inl hbb))))
      exact freeIfSet_doubleFree_mono _ _ hd2
    · obtain ⟨c, hcc⟩ := Option.isSome_iff_exists.mp hsC
      rw [hf1.2.2, hcc]
      exact freeBlock_doubleFree_of_not_mem _ _
        (freeIfSet_not_mem _ _ _ (freeIfSet_not_mem _ _ _ (hdead c (Or.inr (Or.inr hcc)))))
  · intro hA0 hH0 hC0
    show (freeIfSet (freeIfSet (freeIfSet
        (weechat_shutdown s (-1) false).state
        (weechat_shutdown s (-1) false).state.argv0)
        (weechat_shutdown s (-1) false).state.home)
        (weechat_shutdown s (-1) false).state.localCharset).doubleFree = false
    have hf1 := hfields1 s.argv0 s.home s.localCharset
    have hstate : (weechat_shutdown s (-1) false).state = s := by
      show freeIfSet (freeIfSet (freeIfSet s s.argv0) s.home) s.localCharset = s
      rw [hA0, hH0, hC0]
      rfl
    rw [hstate, hA0, hH0, hC0]
    exact hdf

/-- C6 amended witness: on the concrete well-formed state memS0 (all three
pointers set), the first shutdown call sets no double-free flag and the
second one does. -/
theorem weechat_shutdown_second_call_behavior_witness :
    (weechat_shutdown memS0 (-1) false).state.doubleFree = false
    ∧ (weechat_shutdown (weechat_shutdown memS0 (-1) false).state (-1) false).state.doubleFree
        = true := by
  have hwf : MemWF memS0 := by
    refine ⟨by decide, ?_, ?_, ?_, ?_, ?_⟩ <;>
      (intro h hh; simp [memS0] at hh; subst hh; decide)
  have h := weechat_shutdown_second_call_behavior memS0 hwf rfl
  exact ⟨h.1, h.2.1 (Or.inl rfl)⟩

/-- C7 counterexample: after the installation sequence of weechat_init
(lines 628-634), SIGQUIT is not ignored: line 633 re-registers it with the
quit handler, overwriting the SIG_IGN disposition of line 629, so
delivering SIGQUIT changes the process state by setting the pending
quit-signal flag to SIGQUIT. -/
theorem sigquit_not_ignored_after_install :
    signalsInstalled SIGQUIT = SignalAction.quitAction
    ∧ deliverSignal signalsInstalled g0 SIGQUIT ≠ g0
    ∧ (deliverSignal signalsInstalled g0 SIGQUIT).quitSignal = SIGQUIT
    ∧ g0.quitSignal = 0 := by
  decide

/-- C7 as amended: after signal bridge installation, SIGINT and SIGPIPE
are ignored (delivery has no effect on the lifecycle state, in particular
the pending quit-signal flag is untouched), while the initial ignore
registration for SIGQUIT is overwritten later in the same installation
sequence by the quit handler, so delivering SIGQUIT sets the pending
quit-signal flag to SIGQUIT. -/
theorem ignored_signals_after_install (g : LifecycleState) :
    deliverSignal signalsInstalled g SIGINT = g
    ∧ deliverSignal signalsInstalled g SIGPIPE = g
    ∧ deliverSignal signalsInstalled g SIGQUIT = { g with quitSignal := SIGQUIT } := by
  refine ⟨rfl, rfl, rfl⟩

/-- C8: each quit-signal handler of weechat.c (weechat_sighup,
weechat_sigquit, weechat_sigterm) performs exactly one store: it writes
its own signal identity into the pending-signal flag weechat_quit_signal
and leaves every other field of the lifecycle state unchanged (the record
update equalities state both at once); no handler clears the flag (the
stored identity is never the empty value 0), and the installed signal
table routes SIGHUP, SIGQUIT and SIGTERM to the corresponding handler.
The atomicity of the single sig_atomic_t store is an assumption of the
embedding (handlers are modelled as atomic state transformers). -/
theorem quit_signal_handlers_single_store (g : LifecycleState) :
    weechat_sighup g = { g with quitSignal := SIGHUP }
    ∧ weechat_sigquit g = { g with quitSignal := SIGQUIT }
    ∧ weechat_sigterm g = { g with quitSignal := SIGTERM }
    ∧ (weechat_sighup g).quitSignal ≠ 0
    ∧ (weechat_sigquit g).quitSignal ≠ 0
    ∧ (weechat_sigterm g).quitSignal ≠ 0
    ∧ deliverSignal signalsInstalled g SIGHUP = weechat_sighup g
    ∧ deliverSignal signalsInstalled g SIGQUIT = weechat_sigquit g
    ∧ deliverSignal signalsInstalled g SIGTERM = weechat_sigterm g := by
  refine ⟨rfl, rfl, rfl, by simp [weechat_sighup, SIGHUP],
    by simp [weechat_sigquit, SIGQUIT], by simp [weechat_sigterm, SIGTERM], rfl, rfl, rfl⟩

/-- C2 counterexample: with HOME=/tmp/u and the override path ~/.x given
as the -d value (weechat_home already set when weechat_create_home_dir
runs), the resolved home directory is the literal string "~/.x", not
"/tmp/u/.x": weechat_parse_args stores the -d value verbatim (weechat.c
line 198, a plain strdup) and weechat_create_home_dir only calls
weechat_set_home_path — the tilde expansion — on paths coming from the
WEECHAT_HOME environment variable or the compiled-in default (lines
350-371), never on an already-set weechat_home. -/
theorem dash_d_tilde_not_expanded :
    wC2.envHOME = some "/tmp/u"
    ∧ weechat_create_home_dir wC2 "/wh" (some "~/.x") = Sum.inr "~/.x"
    ∧ ("~/.x" : String) ≠ "/tmp/u/.x"
    ∧ cstrHead "~/.x" = some '~' := by
  refine ⟨rfl, rfl, by decide, by decide⟩

/-- C2 as amended: home resolution uses, in priority order, the explicit
-d value, else a non-empty WEECHAT_HOME environment variable, else the
compiled-in default; tilde expansion applies only to the latter two, which
pass through weechat_set_home_path (a leading tilde replaced by HOME, and
a fatal error when HOME is unset while a tilde is used); the explicit -d
value is used verbatim without expansion. -/
theorem home_resolution_priority_and_tilde (w : InitWorld)
    (compiledHome p wh hp hhome : String) :
    (weechat_resolve_home w compiledHome (some p) = Sum.inr p)
    ∧ (w.envWEECHAT_HOME = some wh → wh ≠ "" →
        weechat_resolve_home w compiledHome none = weechat_set_home_path w wh)
    ∧ ((w.envWEECHAT_HOME = none ∨ w.envWEECHAT_HOME = some "") → compiledHome ≠ "" →
        weechat_resolve_home w compiledHome none = weechat_set_home_path w compiledHome)
    ∧ (cstrHead hp = some '~' → w.envHOME = none →
        weechat_set_home_path w hp = Sum.inl ErrMsg.noHome)
    ∧ (cstrHead hp = some '~' → w.envHOME = some hhome → w.mallocOk = true →
        weechat_set_home_path w hp = Sum.inr (cstrAppend hhome (cstrTail hp))) := by
  refine ⟨rfl, ?_, ?_, ?_, ?_⟩
  · intro hwh hne
    simp only [weechat_resolve_home, hwh, if_neg hne]
  · intro hwh hne
    rcases hwh with hwh | hwh <;> simp [weechat_resolve_home, hwh, if_neg hne]
  · intro hhp hnone
    simp [weechat_set_home_path, hhp, hnone]
  · intro hhp hsome hmal
    simp [weechat_set_home_path, hhp, hsome, hmal]

/-- C2 amended witness: with HOME=/tmp/u, the override path ~/.x provided
through the WEECHAT_HOME environment variable resolves to /tmp/u/.x. -/
theorem home_resolution_priority_and_tilde_witness :
    weechat_resolve_home { wC2 with envWEECHAT_HOME := some "~/.x" } "/wh" none
      = Sum.inr "/tmp/u/.x" := by
  have h2 := (home_resolution_priority_and_tilde
    { wC2 with envWEECHAT_HOME := some "~/.x" } "/wh" "" "~/.x" "~/.x" "/tmp/u").2.1
    rfl (by decide)
  have h5 := (home_resolution_priority_and_tilde
    { wC2 with envWEECHAT_HOME := some "~/.x" } "/wh" "" "~/.x" "~/.x" "/tmp/u").2.2.2.2
    (by decide) rfl rfl
  rw [h2, h5]
  decide

/-- Helper: every event of a shutdown trace is one of the seven teardown
events. -/
theorem shutdownEvents_mem (g : GlobalStrings) (e : Ev) (he : e ∈ shutdownEvents g) :
    e = Ev.flushWaitingStderr ∨ e = Ev.logClose ∨ e = Ev.networkEnd ∨ e = Ev.debugEnd
    ∨ e = Ev.freeEv Res.argv0 ∨ e = Ev.freeEv Res.home ∨ e = Ev.freeEv Res.localCharset := by
  unfold shutdownEvents at he
  rcases hA : g.argv0 with _ | a <;> rcases hB : g.home with _ | b <;>
    rcases hC : g.localCharset with _ | c <;>
    simp only [hA, hB, hC] at he <;> simp at he <;> tauto

/-- Helper: classification of every terminating run of the parse loop: a
successful exit prints one of the four informational outputs, and a
failing exit prints exactly one missing-argument diagnostic. -/
theorem parse_loop_exit_shape :
    ∀ (n : Nat) (args : List String), args.length ≤ n →
    ∀ (ps : ParseState) (evs : List Ev) (code : Int) (psx : ParseState),
    weechat_parse_args_loop ps args = Sum.inl (evs, code, psx) →
    (code = EXIT_SUCCESS
      ∧ (evs = [Ev.out OutMsg.colors]
        ∨ evs = [Ev.out OutMsg.copyright, Ev.out OutMsg.usage]
        ∨ evs = [Ev.out OutMsg.copyright, Ev.out OutMsg.license]
        ∨ evs = [Ev.out OutMsg.version]))
    ∨ (code = EXIT_FAILURE ∧ ∃ f, evs = [Ev.err (ErrMsg.missingArg f)]) := by
  intro n
  induction n with
  | zero =>
    intro args hlen ps evs code psx hrun
    rw [List.length_eq_zero.mp (Nat.le_zero.mp hlen)] at hrun
    simp [weechat_parse_args_loop] at hrun
  | succ n ih =>
    intro args hlen ps evs code psx hrun
    cases args with
    | nil => simp [weechat_parse_args_loop] at hrun
    | cons a rest =>
    have hlen1 : rest.length ≤ n := by simp [List.length_cons] at hlen; omega
    rw [parse_step] at hrun
    by_cases h1 : a = "-c" ∨ a = "--colors"
    · rw [if_pos h1] at hrun
      simp only [Sum.inl.injEq, Prod.mk.injEq] at hrun
      exact Or.inl ⟨hrun.2.1.symm, Or.inl hrun.1.symm⟩
    rw [if_neg h1] at hrun
    by_cases h2 : a = "-d" ∨ a = "--dir"
    · rw [if_pos h2] at hrun
      cases rest with
      | nil =>
        simp only [Sum.inl.injEq, Prod.mk.injEq] at hrun
        exact Or.inr ⟨hrun.2.1.symm, a, hrun.1.symm⟩
      | cons v rest2 =>
        have hlen2 : rest2.length ≤ n := by simp [List.length_cons] at hlen; omega
        exact ih rest2 hlen2 _ evs code psx hrun
    rw [if_neg h2] at hrun
    by_cases h3 : a = "-h" ∨ a = "--help"
    · rw [if_pos h3] at hrun
      simp only [Sum.inl.injEq, Prod.mk.injEq] at hrun
      exact Or.inl ⟨hrun.2.1.symm, Or.inr (Or.inl hrun.1.symm)⟩
    rw [if_neg h3] at hrun
    by_cases h4 : a = "-l" ∨ a = "--license"
    · rw [if_pos h4] at hrun
      simp only [Sum.inl.injEq, Prod.mk.injEq] at hrun
      exact Or.inl ⟨hrun.2.1.symm, Or.inr (Or.inr (Or.inl hrun.1.symm))⟩
    rw [if_neg h4] at hrun
    by_cases h5 : a = "--no-dlclose"
    · rw [if_pos h5] at hrun
      exact ih rest hlen1 _ evs code psx hrun
    rw [if_neg h5] at hrun
    by_cases h6 : a = "--no-gnutls"
    · rw [if_pos h6] at hrun
      exact ih rest hlen1 _ evs code psx hrun
    rw [if_neg h6] at hrun
    by_cases h7 : a = "--no-gcrypt"
    · rw [if_pos h7] at hrun
      exact ih rest hlen1 _ evs code psx hrun
    rw [if_neg h7] at hrun
    by_cases h8 : a = "-p" ∨ a = "--no-plugin"
    · rw [if_pos h8] at hrun
      exact ih rest hlen1 _ evs code psx hrun
    rw [if_neg h8] at hrun
    by_cases h9 : a = "-r" ∨ a = "--run-command"
    · rw [if_pos h9] at hrun
      cases rest with
      | nil =>
        simp only [Sum.inl.injEq, Prod.mk.injEq] at hrun
        exact Or.inr ⟨hrun.2.1.symm, a, hrun.1.symm⟩
      | cons v rest2 =>
        have hlen2 : rest2.length ≤ n := by simp [List.length_cons] at hlen; omega
        exact ih rest2 hlen2 _ evs code psx hrun
    rw [if_neg h9] at hrun
    by_cases h10 : a = "--upgrade"
    · rw [if_pos h10] at hrun
      exact ih rest hlen1 _ evs code psx hrun
    rw [if_neg h10] at hrun
    by_cases h11 : a = "-v" ∨ a = "--version"
    · rw [if_pos h11] at hrun
      simp only [Sum.inl.injEq, Prod.mk.injEq] at hrun
      exact Or.inl ⟨hrun.2.1.symm, Or.inr (Or.inr (Or.inr hrun.1.symm))⟩
    rw [if_neg h11] at hrun
    exact ih rest hlen1 _ evs code psx hrun

/-- Helper: when the argument list carries an effective informational
flag, the parse loop exits successfully with one of the four
informational outputs. -/
theorem parse_info_exit :
    ∀ (n : Nat) (args : List String), args.length ≤ n →
    effectiveInfoFlag args = true →
    ∀ ps : ParseState,
    ∃ evs psx, weechat_parse_args_loop ps args = Sum.inl (evs, EXIT_SUCCESS, psx)
      ∧ (evs = [Ev.out OutMsg.colors]
        ∨ evs = [Ev.out OutMsg.copyright, Ev.out OutMsg.usage]
        ∨ evs = [Ev.out OutMsg.copyright, Ev.out OutMsg.license]
        ∨ evs = [Ev.out OutMsg.version]) := by
  intro n
  induction n with
  | zero =>
    intro args hlen hi ps
    rw [List.length_eq_zero.mp (Nat.le_zero.mp hlen)] at hi
    simp [effectiveInfoFlag] at hi
  | succ n ih =>
    intro args hlen hi ps
    cases args with
    | nil => simp [effectiveInfoFlag] at hi
    | cons a rest =>
    have hlen1 : rest.length ≤ n := by simp [List.length_cons] at hlen; omega
    by_cases h1 : a = "-c" ∨ a = "--colors"
    · refine ⟨[Ev.out OutMsg.colors], ps, ?_, Or.inl rfl⟩
      rw [parse_step, if_pos h1]
    by_cases h2 : a = "-d" ∨ a = "--dir"
    · cases rest with
      | nil =>
        exfalso
        rcases h2 with rfl | rfl <;>
          (rw [effectiveInfoFlag.eq_def] at hi; simp [infoFlags, valueFlags] at hi)
      | cons v rest2 =>
        have hlen2 : rest2.length ≤ n := by simp [List.length_cons] at hlen; omega
        have hi2 : effectiveInfoFlag rest2 = true := by
          rcases h2 with rfl | rfl <;>
            (rw [effectiveInfoFlag.eq_def] at hi; simpa [infoFlags, valueFlags] using hi)
        obtain ⟨evs, psx, heq, hsh⟩ := ih rest2 hlen2 hi2 { ps with home := some v }
        refine ⟨evs, psx, ?_, hsh⟩
        rw [parse_step, if_neg h1, if_pos h2]
        exact heq
    by_cases h3 : a = "-h" ∨ a = "--help"
    · refine ⟨[Ev.out OutMsg.copyright, Ev.out OutMsg.usage], ps, ?_, Or.inr (Or.inl rfl)⟩
      rw [parse_step, if_neg h1, if_neg h2, if_pos h3]
    by_cases h4 : a = "-l" ∨ a = "--license"
    · refine ⟨[Ev.out OutMsg.copyright, Ev.out OutMsg.license], ps, ?_,
        Or.inr (Or.inr (Or.inl rfl))⟩
      rw [parse_step, if_neg h1, if_neg h2, if_neg h3, if_pos h4]
    by_cases h5 : a = "--no-dlclose"
    · subst h5
      have hi2 : effectiveInfoFlag rest = true := by
        rw [effectiveInfoFlag.eq_def] at hi
        simpa [infoFlags, valueFlags] using hi
      obtain ⟨evs, psx, heq, hsh⟩ := ih rest hlen1 hi2 { ps with pluginNoDlclose := true }
      refine ⟨evs, psx, ?_, hsh⟩
      rw [parse_step, if_neg h1, if_neg h2, if_neg h3, if_neg h4, if_pos rfl]
      exact heq
    by_cases h6 : a = "--no-gnutls"
    · subst h6
      have hi2 : effectiveInfoFlag rest = true := by
        rw [effectiveInfoFlag.eq_def] at hi
        simpa [infoFlags, valueFlags] using hi
      obtain ⟨evs, psx, heq, hsh⟩ := ih rest hlen1 hi2 { ps with noGnutls := true }
      refine ⟨evs, psx, ?_, hsh⟩
      rw [parse_step, if_neg h1, if_neg h2, if_neg h3, if_neg h4, if_neg h5, if_pos rfl]
      exact heq
    by_cases h7 : a = "--no-gcrypt"
    · subst h7
      have hi2 : effectiveInfoFlag rest = true := by
        rw [effectiveInfoFlag.eq_def] at hi
        simpa [infoFlags, valueFlags] using hi
      obtain ⟨evs, psx, heq, hsh⟩ := ih rest hlen1 hi2 { ps with noGcrypt := true }
      refine ⟨evs, psx, ?_, hsh⟩
      rw [parse_step, if_neg h1, if_neg h2, if_neg h3, if_neg h4, if_neg h5, if_neg h6,
        if_pos rfl]
      exact heq
    by_cases h8 : a = "-p" ∨ a = "--no-plugin"
    · have hi2 : effectiveInfoFlag rest = true := by
        rcases h8 with rfl | rfl <;>
          (rw [effectiveInfoFlag.eq_def] at hi; simpa [infoFlags, valueFlags] using hi)
      obtain ⟨evs, psx, heq, hsh⟩ := ih rest hlen1 hi2 { ps with autoLoadPlugins := false }
      refine ⟨evs, psx, ?_, hsh⟩
      rw [parse_step, if_neg h1, if_neg h2, if_neg h3, if_neg h4, if_neg h5, if_neg h6,
        if_neg h7, if_pos h8]
      exact heq
    by_cases h9 : a = "-r" ∨ a = "--run-command"
    · cases rest with
      | nil =>
        exfalso
        rcases h9 with rfl | rfl <;>
          (rw [effectiveInfoFlag.eq_def] at hi; simp [infoFlags, valueFlags] at hi)
      | cons v rest2 =>
        have hlen2 : rest2.length ≤ n := by simp [List.length_cons] at hlen; omega
        have hi2 : effectiveInfoFlag rest2 = true := by
          rcases h9 with rfl | rfl <;>
            (rw [effectiveInfoFlag.eq_def] at hi; simpa [infoFlags, valueFlags] using hi)
        obtain ⟨evs, psx, heq, hsh⟩ := ih rest2 hlen2 hi2 { ps with startupCommands := some v }
        refine ⟨evs, psx, ?_, hsh⟩
        rw [parse_step, if_neg h1, if_neg h2, if_neg h3, if_neg h4, if_neg h5, if_neg h6,
          if_neg h7, if_neg h8, if_pos h9]
        exact heq
    by_cases h10 : a = "--upgrade"
    · subst h10
      have hi2 : effectiveInfoFlag rest = true := by
        rw [effectiveInfoFlag.eq_def] at hi
        simpa [infoFlags, valueFlags] using hi
      obtain ⟨evs, psx, heq, hsh⟩ := ih rest hlen1 hi2 { ps with upgrading := true }
      refine ⟨evs, psx, ?_, hsh⟩
      rw [parse_step, if_neg h1, if_neg h2, if_neg h3, if_neg h4, if_neg h5, if_neg h6,
        if_neg h7, if_neg h8, if_neg h9, if_pos rfl]
      exact heq
    by_cases h11 : a = "-v" ∨ a = "--version"
    · refine ⟨[Ev.out OutMsg.version], ps, ?_, Or.inr (Or.inr (Or.inr rfl))⟩
      rw [parse_step, if_neg h1, if_neg h2, if_neg h3, if_neg h4, if_neg h5, if_neg h6,
        if_neg h7, if_neg h8, if_neg h9, if_neg h10, if_pos h11]
    have hnotinfo : a ∉ infoFlags := by
      push_neg at h1 h3 h4 h11
      simp [infoFlags, not_or]
      exact ⟨h1.1, h1.2, h3.1, h3.2, h4.1, h4.2, h11.1, h11.2⟩
    have hnotvalue : a ∉ valueFlags := by
      push_neg at h2 h9
      simp [valueFlags, not_or]
      exact ⟨h2.1, h2.2, h9.1, h9.2⟩
    have hi2 : effectiveInfoFlag rest = true := by
      rw [effectiveInfoFlag.eq_def] at hi
      simpa [if_neg hnotinfo, if_neg hnotvalue] using hi
    obtain ⟨evs, psx, heq, hsh⟩ := ih rest hlen1 hi2 ps
    refine ⟨evs, psx, ?_, hsh⟩
    rw [parse_step, if_neg h1, if_neg h2, if_neg h3, if_neg h4, if_neg h5, if_neg h6,
      if_neg h7, if_neg h8, if_neg h9, if_neg h10, if_neg h11]
    exact heq

/-- Helper: the shutdown trace contains no initializer events. -/
theorem shutdownEvents_no_init (g : GlobalStrings) :
    Ev.pluginInit ∉ shutdownEvents g ∧ Ev.guiInit ∉ shutdownEvents g
    ∧ Ev.upgradeLoad ∉ shutdownEvents g := by
  refine ⟨?_, ?_, ?_⟩ <;> intro hmem <;>
    rcases shutdownEvents_mem g _ hmem with h | h | h | h | h | h | h <;> simp at h

/-- C1 as amended: for every argument sequence in which one of the
informational flags is effective (appears where the parse loop dispatches
on it, not swallowed as the value of a preceding dir or run-command
option), and when the secure-store and configuration-store initializers
succeed (they run before argument parsing and their failure would exit
first), the process terminates with the success exit code after printing
the corresponding informational output, and neither plugin init nor UI
init (nor the upgrade restore) is ever invoked before that termination;
however the registry, crypto, secure-store and configuration-store
initializer steps have already run by then, because weechat.c parses the
arguments only at line 649, after lines 636-648. -/
theorem info_flags_exit_success_before_plugin_and_gui_init
    (argv : List String) (w : InitWorld) (compiledHome : String)
    (hs : w.secureInitOk = true) (hc : w.configInitOk = true)
    (hi : effectiveInfoFlag (argv.drop 1) = true) :
    (weechatInit argv w compiledHome).outcome = Outcome.exited EXIT_SUCCESS
    ∧ (∃ m, Ev.out m ∈ (weechatInit argv w compiledHome).trace)
    ∧ Ev.pluginInit ∉ (weechatInit argv w compiledHome).trace
    ∧ Ev.guiInit ∉ (weechatInit argv w compiledHome).trace
    ∧ Ev.upgradeLoad ∉ (weechatInit argv w compiledHome).trace
    ∧ Ev.secureInit ∈ (weechatInit argv w compiledHome).trace
    ∧ Ev.configInit ∈ (weechatInit argv w compiledHome).trace := by
  obtain ⟨evs, psx, hrun, hsh⟩ :=
    parse_info_exit (argv.drop 1).length (argv.drop 1) le_rfl hi (parseInitState argv)
  rw [List.drop_one] at hrun
  have htr : weechatInit argv w compiledHome =
      { trace := weechatInitPrefix ++ secureInitEvents true ++ configInitEvents true ++ evs
          ++ shutdownEvents { argv0 := psx.argv0, home := psx.home,
                              localCharset := some w.codesetName },
        outcome := Outcome.exited EXIT_SUCCESS, finalConfig := none,
        upgradeCount := 0, handoffExists := w.handoffExists } := by
    simp [weechatInit, hs, hc, hrun]
  rw [htr]
  refine ⟨rfl, ?_, ?_, ?_, ?_, ?_, ?_⟩
  · rcases hsh with rfl | rfl | rfl | rfl
    · exact ⟨OutMsg.colors, by simp⟩
    · exact ⟨OutMsg.usage, by simp⟩
    · exact ⟨OutMsg.license, by simp⟩
    · exact ⟨OutMsg.version, by simp⟩
  · intro hmem
    simp only [List.mem_append] at hmem
    rcases hmem with (((hmem | hmem) | hmem) | hmem) | hmem
    · exact absurd hmem (by decide)
    · exact absurd hmem (by decide)
    · exact absurd hmem (by decide)
    · rcases hsh with rfl | rfl | rfl | rfl <;> simp at hmem
    · exact (shutdownEvents_no_init _).1 hmem
  · intro hmem
    simp only [List.mem_append] at hmem
    rcases hmem with (((hmem | hmem) | hmem) | hmem) | hmem
    · exact absurd hmem (by decide)
    · exact absurd hmem (by decide)
    · exact absurd hmem (by decide)
    · rcases hsh with rfl | rfl | rfl | rfl <;> simp at hmem
    · exact (shutdownEvents_no_init _).2.1 hmem
  · intro hmem
    simp only [List.mem_append] at hmem
    rcases hmem with (((hmem | hmem) | hmem) | hmem) | hmem
    · exact absurd hmem (by decide)
    · exact absurd hmem (by decide)
    · exact absurd hmem (by decide)
    · rcases hsh with rfl | rfl | rfl | rfl <;> simp at hmem
    · exact (shutdownEvents_no_init _).2.2 hmem
  · simp [secureInitEvents]
  · simp [configInitEvents]

/-- C1 amended witness: the concrete run with arguments
["weechat", "-h"] in the all-collaborators-succeed world exits with the
success code without invoking plugin or UI init. -/
theorem info_flags_exit_success_witness :
    (weechatInit ["weechat", "-h"] wOk "/wh").outcome = Outcome.exited EXIT_SUCCESS
    ∧ Ev.pluginInit ∉ (weechatInit ["weechat", "-h"] wOk "/wh").trace
    ∧ Ev.guiInit ∉ (weechatInit ["weechat", "-h"] wOk "/wh").trace := by
  have h := info_flags_exit_success_before_plugin_and_gui_init ["weechat", "-h"] wOk "/wh"
    rfl rfl (by decide)
  exact ⟨h.1, h.2.2.1, h.2.2.2.1⟩

/-- C9 (with the diagnostics of the secure-store and configuration-store
initializers modelled from the spec): every fatal termination path of
weechat_init — a usage error during argument parsing, any
home-resolution failure, a secure-store init failure, a
configuration-store init failure — prints a human-readable diagnostic on
the error channel before the process terminates with a failure code: any
run whose outcome is an exit with a nonzero code has an error event in
its trace, and every trace event precedes the termination by
construction.  No fatal path terminates silently. -/
theorem fatal_exits_print_diagnostic (argv : List String) (w : InitWorld)
    (compiledHome : String) (code : Int)
    (hout : (weechatInit argv w compiledHome).outcome = Outcome.exited code)
    (hnz : code ≠ 0) :
    ∃ m, Ev.err m ∈ (weechatInit argv w compiledHome).trace := by
  simp only [weechatInit] at hout ⊢
  by_cases hs : w.secureInitOk = true
  case neg =>
    rw [if_neg hs] at hout ⊢
    exact ⟨ErrMsg.secureInitFailed, by simp [secureInitEvents]⟩
  rw [if_pos hs] at hout ⊢
  by_cases hcf : w.configInitOk = true
  case neg =>
    rw [if_neg hcf] at hout ⊢
    exact ⟨ErrMsg.configInitFailed, by simp [configInitEvents]⟩
  rw [if_pos hcf] at hout ⊢
  rcases hrun : weechat_parse_args_loop (parseInitState argv) (argv.drop 1) with
    ⟨evs, pcode, psx⟩ | ps
  · simp only [hrun] at hout ⊢
    simp only [Outcome.exited.injEq] at hout
    rcases parse_loop_exit_shape (argv.drop 1).length (argv.drop 1) le_rfl
        (parseInitState argv) evs pcode psx hrun with ⟨hzero, _⟩ | ⟨_, f, hevs⟩
    · exfalso
      apply hnz
      rw [← hout, hzero]
      rfl
    · exact ⟨ErrMsg.missingArg f, by simp [hevs]⟩
  · simp only [hrun] at hout ⊢
    rcases hch : weechat_create_home_dir w compiledHome ps.home with ⟨e, hf⟩ | home
    · simp only [hch] at hout ⊢
      exact ⟨e, by simp⟩
    · simp only [hch] at hout
      simp at hout

/-- C9 witness: the run with a dangling -d option exits with the failure
code and its trace contains an error diagnostic. -/
theorem fatal_exits_print_diagnostic_witness :
    ∃ m, Ev.err m ∈ (weechatInit ["weechat", "-d"] wOk "/wh").trace :=
  fatal_exits_print_diagnostic ["weechat", "-d"] wOk "/wh" EXIT_FAILURE
    (by decide) (by decide)

/-- Helper: on a run that completes initialization, the trace, the final
upgrade counter and the handoff state are determined by the GUI callback
flag and the parsed upgrading flag. -/
theorem weechatInit_finished_cases (argv : List String) (w : InitWorld)
    (compiledHome : String) (ps : ParseState)
    (hc : (weechatInit argv w compiledHome).finalConfig = some ps)
    (ho : (weechatInit argv w compiledHome).outcome = Outcome.finished) :
    (weechatInit argv w compiledHome).trace
        = weechatInitPrefix ++ secureInitEvents true ++ configInitEvents true
          ++ finishedTail w.guiCb ps.upgrading
    ∧ (weechatInit argv w compiledHome).upgradeCount = (if ps.upgrading then 1 else 0)
    ∧ (weechatInit argv w compiledHome).handoffExists
        = (if ps.upgrading then false else w.handoffExists) := by
  simp only [weechatInit] at hc ho ⊢
  by_cases hs : w.secureInitOk = true
  case neg => rw [if_neg hs] at hc; simp at hc
  rw [if_pos hs] at hc ho ⊢
  by_cases hcf : w.configInitOk = true
  case neg => rw [if_neg hcf] at hc; simp at hc
  rw [if_pos hcf] at hc ho ⊢
  rcases hrun : weechat_parse_args_loop (parseInitState argv) (argv.drop 1) with
    ⟨evs, pcode, psx⟩ | ps2
  · simp only [hrun] at hc; simp at hc
  · simp only [hrun] at hc ho ⊢
    rcases hch : weechat_create_home_dir w compiledHome ps2.home with ⟨e, hf⟩ | home
    · simp only [hch] at ho; simp [EXIT_FAILURE] at ho
    · simp only [hch] at hc ⊢
      simp only [Option.some.injEq] at hc
      subst hc
      exact ⟨rfl, rfl, rfl⟩

/-- Helper: the home-directory creation step never reads the modelled
restore result. -/
theorem weechat_create_home_dir_frame (w : InitWorld) (b : Bool) (ch : String)
    (cur : Option String) :
    weechat_create_home_dir { w with upgradeLoadOk := b } ch cur
      = weechat_create_home_dir w ch cur := rfl

/-- C3 counterexample: on an upgrade-restore launch whose restore fails
(the modelled load result is false), the in-memory upgrade counter is
still incremented to 1 and the handoff files are still deleted, because
weechat.c line 662 discards the result of upgrade_weechat_load, line 663
increments unconditionally, and line 676 calls upgrade_weechat_end
unconditionally — contradicting both the only-on-success increment and
the preserve-on-failure requirement. -/
theorem upgrade_count_and_cleanup_ignore_restore_result :
    wUpgradeFail.upgradeLoadOk = false
    ∧ wUpgradeFail.handoffExists = true
    ∧ (weechatInit ["weechat", "--upgrade"] wUpgradeFail "/wh").outcome = Outcome.finished
    ∧ (weechatInit ["weechat", "--upgrade"] wUpgradeFail "/wh").upgradeCount = 1
    ∧ (weechatInit ["weechat", "--upgrade"] wUpgradeFail "/wh").handoffExists = false := by
  decide

/-- C3 as amended (restore result spec-modelled, see InitWorld): on every
upgrade-restore launch that completes initialization, the in-memory
upgrade counter is incremented by exactly 1 and the handoff files no
longer exist afterwards, regardless of whether the restore succeeded: the
whole result of weechat_init is independent of the restore result (first
conjunct), the counter increment and the handoff deletion are
unconditional on the upgrade path. -/
theorem upgrade_count_increment_unconditional (argv : List String) (w : InitWorld)
    (compiledHome : String) (b : Bool) (ps : ParseState)
    (hc : (weechatInit argv w compiledHome).finalConfig = some ps)
    (hu : ps.upgrading = true)
    (ho : (weechatInit argv w compiledHome).outcome = Outcome.finished) :
    weechatInit argv { w with upgradeLoadOk := b } compiledHome
        = weechatInit argv w compiledHome
    ∧ (weechatInit argv w compiledHome).upgradeCount = 1
    ∧ (weechatInit argv w compiledHome).handoffExists = false := by
  obtain ⟨_, hcount, hhand⟩ := weechatInit_finished_cases argv w compiledHome ps hc ho
  refine ⟨?_, ?_, ?_⟩
  · simp only [weechatInit, weechat_create_home_dir_frame]
  · rw [hcount, hu]
    rfl
  · rw [hhand, hu]
    rfl

/-- C3 amended witness: the concrete failing-restore upgrade launch ends
with counter 1 and no handoff files. -/
theorem upgrade_count_increment_unconditional_witness :
    (weechatInit ["weechat", "--upgrade"] wUpgradeFail "/wh").upgradeCount = 1
    ∧ (weechatInit ["weechat", "--upgrade"] wUpgradeFail "/wh").handoffExists = false := by
  have h := upgrade_count_increment_unconditional ["weechat", "--upgrade"] wUpgradeFail "/wh"
    true psUpgrade (by decide) (by decide) (by decide)
  exact ⟨h.2.1, h.2.2⟩

/-- C4 counterexample: on an upgrade-restore launch whose restore fails
(the modelled load result is false), the handoff cleanup upgrade_weechat_end
still runs: weechat.c lines 673-677 condition it only on
weechat_upgrading, not on a successful restore, contradicting the claim
that cleanup never runs before a successful restore. -/
theorem upgrade_cleanup_runs_after_failed_restore :
    wUpgradeFail.upgradeLoadOk = false
    ∧ (weechatInit ["weechat", "--upgrade"] wUpgradeFail "/wh").outcome = Outcome.finished
    ∧ Ev.upgradeEnd ∈ (weechatInit ["weechat", "--upgrade"] wUpgradeFail "/wh").trace
    ∧ Ev.upgradeLoad ∈ (weechatInit ["weechat", "--upgrade"] wUpgradeFail "/wh").trace := by
  decide

/-- C4 as amended: in every completed upgrade-restore launch, the restore
step runs strictly after the secure-store read and the configuration
read, strictly before the startup banner, and executes exactly once; the
handoff cleanup runs exactly once, strictly after all later initializer
steps including plugin init and strictly after the restore step — but it
runs whether or not the restore succeeded (the restore result is not
consulted; see the counterexample and the frame conjunct of the C3
theorem). -/
theorem upgrade_restore_ordering (argv : List String) (w : InitWorld)
    (compiledHome : String) (ps : ParseState)
    (hc : (weechatInit argv w compiledHome).finalConfig = some ps)
    (hu : ps.upgrading = true)
    (ho : (weechatInit argv w compiledHome).outcome = Outcome.finished) :
    evIdx (weechatInit argv w compiledHome).trace Ev.secureRead
        < evIdx (weechatInit argv w compiledHome).trace Ev.upgradeLoad
    ∧ evIdx (weechatInit argv w compiledHome).trace Ev.configRead
        < evIdx (weechatInit argv w compiledHome).trace Ev.upgradeLoad
    ∧ evIdx (weechatInit argv w compiledHome).trace Ev.upgradeLoad
        < evIdx (weechatInit argv w compiledHome).trace Ev.startupMessage
    ∧ (weechatInit argv w compiledHome).trace.count Ev.upgradeLoad = 1
    ∧ evIdx (weechatInit argv w compiledHome).trace Ev.pluginInit
        < evIdx (weechatInit argv w compiledHome).trace Ev.upgradeEnd
    ∧ evIdx (weechatInit argv w compiledHome).trace Ev.upgradeLoad
        < evIdx (weechatInit argv w compiledHome).trace Ev.upgradeEnd
    ∧ (weechatInit argv w compiledHome).trace.count Ev.upgradeEnd = 1
    ∧ Ev.upgradeEnd ∈ (weechatInit argv w compiledHome).trace := by
  obtain ⟨htr, _, _⟩ := weechatInit_finished_cases argv w compiledHome ps hc ho
  rw [hu] at htr
  rw [htr]
  rcases hg : w.guiCb with _ | _ <;> decide

/-- C4 amended witness: the ordering facts on the concrete upgrade launch
with a failing restore. -/
theorem upgrade_restore_ordering_witness :
    evIdx (weechatInit ["weechat", "--upgrade"] wUpgradeFail "/wh").trace Ev.secureRead
        < evIdx (weechatInit ["weechat", "--upgrade"] wUpgradeFail "/wh").trace Ev.upgradeLoad
    ∧ (weechatInit ["weechat", "--upgrade"] wUpgradeFail "/wh").trace.count Ev.upgradeLoad
        = 1 := by
  have h := upgrade_restore_ordering ["weechat", "--upgrade"] wUpgradeFail "/wh"
    psUpgrade (by decide) (by decide) (by decide)
  exact ⟨h.1, h.2.2.2.1⟩

end WeechatCore
